import Mathlib

/-!
# Verification of the near-protocol-rewards metrics and scoring pipeline

Shallow embedding of the data-processor core of the repository:
the Cohort scoring formulas (`rewards/offchain_scorer.py`, `rewards/onchain_scorer.py`,
`rewards/total.py`, `rewards/level.py`, `rewards/monetary.py`), the GitHub and
NearBlocks API clients' pagination and error handling, the collectors, the
data combiner and the off-chain controller.

Python `float` arithmetic is modelled exactly over `ℚ`; Python `int` over `ℕ`/`ℤ`.
Python's `round(x, 2)` (round-half-to-even to two decimal places) is modelled by
`pyRound2` below.  Python dictionaries carrying typed payloads are modelled by
structures; a field that may be missing or `None` is an `Option`.
-/

/-- Round-half-to-even of a rational to an integer, the semantics of Python's
built-in `round` (banker's rounding). -/
def roundHalfEven (x : ℚ) : ℤ :=
  if x - ⌊x⌋ < 1/2 then ⌊x⌋
  else if 1/2 < x - ⌊x⌋ then ⌊x⌋ + 1
  else if Even ⌊x⌋ then ⌊x⌋ else ⌊x⌋ + 1

/-- Python's `round(x, 2)`: round-half-to-even at two decimal places. -/
def pyRound2 (q : ℚ) : ℚ := (roundHalfEven (q * 100) : ℚ) / 100

/-! ## Scoring formulas (`rewards/`)

`calculateOffchainScore` (offchain_scorer.py), `calculateOnchainScore`
(onchain_scorer.py), `determineLevel` (level.py), `calculateMonetaryReward`
(monetary.py) and `calculateTotalRewards` (total.py).  The Python functions
extract raw numbers from nested metric dictionaries with a default of `0`;
the extracted raw fields are modelled as the input structures below.  The
returned dictionaries are modelled as structures holding the same numeric
payload (the echoed `thresholds`/`maxPoints` constants are omitted). -/

/-- Raw GitHub metrics extracted by `calculateOffchainScore`:
`commits.count`, `pull_requests.merged`, `reviews.count`, `issues.closed`. -/
structure OffchainInput where
  commits_count : ℚ
  pull_requests_merged : ℚ
  reviews_count : ℚ
  issues_closed : ℚ
deriving DecidableEq

/-- The `score` mapping returned by `calculateOffchainScore`:
`total` and the `breakdown` fields, each rounded to two decimals. -/
structure OffchainScore where
  total : ℚ
  commits : ℚ
  pullRequests : ℚ
  reviews : ℚ
  issues : ℚ
deriving DecidableEq

/-- `calculateOffchainScore` (offchain_scorer.py): each component is
`min(metric / threshold, 1.0) * max_points` with thresholds 100/25/30/30 and
max points 28/22/16/14; the total is the plain sum; every output is
`round(_, 2)`. -/
def calculateOffchainScore (m : OffchainInput) : OffchainScore :=
  ⟨pyRound2 (min (m.commits_count / 100) 1 * 28 + min (m.pull_requests_merged / 25) 1 * 22 +
      min (m.reviews_count / 30) 1 * 16 + min (m.issues_closed / 30) 1 * 14),
   pyRound2 (min (m.commits_count / 100) 1 * 28),
   pyRound2 (min (m.pull_requests_merged / 25) 1 * 22),
   pyRound2 (min (m.reviews_count / 30) 1 * 16),
   pyRound2 (min (m.issues_closed / 30) 1 * 14)⟩

/-- Raw NEAR metrics extracted by `calculateOnchainScore`:
`transaction_volume.total_volume_near`, `transaction_volume.total_volume_usdc`,
`smart_contracts.unique_contract_calls`, `unique_wallets.unique_wallets`. -/
structure OnchainInput where
  total_volume_near : ℚ
  total_volume_usdc : ℚ
  unique_contract_calls : ℚ
  unique_wallets : ℚ
deriving DecidableEq

/-- The `score` mapping returned by `calculateOnchainScore`. -/
structure OnchainScore where
  total : ℚ
  transactionVolume : ℚ
  contractCalls : ℚ
  uniqueWallets : ℚ
deriving DecidableEq

/-- `calculateOnchainScore` (onchain_scorer.py): USD volume is
`near * 5.0 + usdc`; components are `min(metric / threshold, 1.0) * max_points`
with thresholds 10000/500/100 and max points 8/8/4; outputs rounded. -/
def calculateOnchainScore (m : OnchainInput) : OnchainScore :=
  ⟨pyRound2 (min ((m.total_volume_near * 5 + m.total_volume_usdc) / 10000) 1 * 8 +
      min (m.unique_contract_calls / 500) 1 * 8 + min (m.unique_wallets / 100) 1 * 4),
   pyRound2 (min ((m.total_volume_near * 5 + m.total_volume_usdc) / 10000) 1 * 8),
   pyRound2 (min (m.unique_contract_calls / 500) 1 * 8),
   pyRound2 (min (m.unique_wallets / 100) 1 * 4)⟩

/-- A reward tier as returned by `determineLevel` (level.py). -/
structure Level where
  name : String
  minScore : ℤ
  maxScore : ℤ
  color : String
deriving DecidableEq

/-- `determineLevel` (level.py): top-down `>=` ladder over the 0–100 score. -/
def determineLevel (score : ℚ) : Level :=
  if 85 ≤ score then ⟨"Diamond", 85, 100, "#B9F2FF"⟩
  else if 70 ≤ score then ⟨"Gold", 70, 84, "#FFD700"⟩
  else if 55 ≤ score then ⟨"Silver", 55, 69, "#C0C0C0"⟩
  else if 40 ≤ score then ⟨"Bronze", 40, 54, "#CD7F32"⟩
  else if 20 ≤ score then ⟨"Contributor", 20, 39, "#A4A4A4"⟩
  else if 1 ≤ score then ⟨"Explorer", 1, 19, "#808080"⟩
  else ⟨"No Tier", 0, 0, "#000000"⟩

/-- `calculateMonetaryReward` (monetary.py): top-down `>=` ladder mapping the
score to a dollar amount. -/
def calculateMonetaryReward (score : ℚ) : ℤ :=
  if 85 ≤ score then 10000
  else if 70 ≤ score then 6000
  else if 55 ≤ score then 3000
  else if 40 ≤ score then 1000
  else if 20 ≤ score then 500
  else if 1 ≤ score then 100
  else 0

/-- The result of `calculateTotalRewards` (total.py): rounded combined total,
rounded per-category breakdown, the tier and the monetary reward. -/
structure TotalRewards where
  score_total : ℚ
  breakdown_onchain : ℚ
  breakdown_offchain : ℚ
  level : Level
  total_reward : ℤ
deriving DecidableEq

/-- `calculateTotalRewards` (total.py): an absent (falsy) metrics dictionary
contributes a category score of `0`; otherwise the category scorer's rounded
`score.total` is used.  The combined total is the sum of the two category
totals; the tier and reward are computed from the (unrounded) sum. -/
def calculateTotalRewards (onchain_metrics : Option OnchainInput)
    (offchain_metrics : Option OffchainInput) : TotalRewards :=
  let offchain_score : ℚ := match offchain_metrics with
    | none => 0
    | some m => (calculateOffchainScore m).total
  let onchain_score : ℚ := match onchain_metrics with
    | none => 0
    | some m => (calculateOnchainScore m).total
  let total_score := onchain_score + offchain_score
  ⟨pyRound2 total_score, pyRound2 onchain_score, pyRound2 offchain_score,
   determineLevel total_score, calculateMonetaryReward total_score⟩

/-! Generic facts about one scoring component `min (x / t) 1 * p`. -/

/-- The hypothesis of the scoring claim for the off-chain raw fields: all four
extracted raw metrics are non-negative numbers. -/
def OffchainInput.Nonneg (m : OffchainInput) : Prop :=
  0 ≤ m.commits_count ∧ 0 ≤ m.pull_requests_merged ∧
  0 ≤ m.reviews_count ∧ 0 ≤ m.issues_closed

/-- The hypothesis of the scoring claim for the on-chain raw fields. -/
def OnchainInput.Nonneg (n : OnchainInput) : Prop :=
  0 ≤ n.total_volume_near ∧ 0 ≤ n.total_volume_usdc ∧
  0 ≤ n.unique_contract_calls ∧ 0 ≤ n.unique_wallets

/-- The conjunction asserted by the scoring claim: component bounds
(28/22/16/14 off-chain, 8/8/4 on-chain), category totals at most 80 and 20,
combined total at most 100, monotonicity of every component in its raw metric,
and clamping once the metric reaches its threshold. -/
def CohortScoreProperty (m m' : OffchainInput) (n n' : OnchainInput) : Prop :=
  (0 ≤ (calculateOffchainScore m).commits ∧ (calculateOffchainScore m).commits ≤ 28) ∧
  (0 ≤ (calculateOffchainScore m).pullRequests ∧ (calculateOffchainScore m).pullRequests ≤ 22) ∧
  (0 ≤ (calculateOffchainScore m).reviews ∧ (calculateOffchainScore m).reviews ≤ 16) ∧
  (0 ≤ (calculateOffchainScore m).issues ∧ (calculateOffchainScore m).issues ≤ 14) ∧
  (0 ≤ (calculateOffchainScore m).total ∧ (calculateOffchainScore m).total ≤ 80) ∧
  (0 ≤ (calculateOnchainScore n).transactionVolume ∧ (calculateOnchainScore n).transactionVolume ≤ 8) ∧
  (0 ≤ (calculateOnchainScore n).contractCalls ∧ (calculateOnchainScore n).contractCalls ≤ 8) ∧
  (0 ≤ (calculateOnchainScore n).uniqueWallets ∧ (calculateOnchainScore n).uniqueWallets ≤ 4) ∧
  (0 ≤ (calculateOnchainScore n).total ∧ (calculateOnchainScore n).total ≤ 20) ∧
  (calculateTotalRewards (some n) (some m)).score_total ≤ 100 ∧
  (m.commits_count ≤ m'.commits_count →
    (calculateOffchainScore m).commits ≤ (calculateOffchainScore m').commits) ∧
  (m.pull_requests_merged ≤ m'.pull_requests_merged →
    (calculateOffchainScore m).pullRequests ≤ (calculateOffchainScore m').pullRequests) ∧
  (m.reviews_count ≤ m'.reviews_count →
    (calculateOffchainScore m).reviews ≤ (calculateOffchainScore m').reviews) ∧
  (m.issues_closed ≤ m'.issues_closed →
    (calculateOffchainScore m).issues ≤ (calculateOffchainScore m').issues) ∧
  (n.total_volume_near ≤ n'.total_volume_near → n.total_volume_usdc ≤ n'.total_volume_usdc →
    (calculateOnchainScore n).transactionVolume ≤ (calculateOnchainScore n').transactionVolume) ∧
  (n.unique_contract_calls ≤ n'.unique_contract_calls →
    (calculateOnchainScore n).contractCalls ≤ (calculateOnchainScore n').contractCalls) ∧
  (n.unique_wallets ≤ n'.unique_wallets →
    (calculateOnchainScore n).uniqueWallets ≤ (calculateOnchainScore n').uniqueWallets) ∧
  (100 ≤ m.commits_count → (calculateOffchainScore m).commits = 28) ∧
  (25 ≤ m.pull_requests_merged → (calculateOffchainScore m).pullRequests = 22) ∧
  (30 ≤ m.reviews_count → (calculateOffchainScore m).reviews = 16) ∧
  (30 ≤ m.issues_closed → (calculateOffchainScore m).issues = 14) ∧
  (10000 ≤ n.total_volume_near * 5 + n.total_volume_usdc →
    (calculateOnchainScore n).transactionVolume = 8) ∧
  (500 ≤ n.unique_contract_calls → (calculateOnchainScore n).contractCalls = 8) ∧
  (100 ≤ n.unique_wallets → (calculateOnchainScore n).uniqueWallets = 4)

/-- The reward amount that the claim associates with each tier name. -/
def tierReward : String → ℤ
  | "Diamond" => 10000
  | "Gold" => 6000
  | "Silver" => 3000
  | "Bronze" => 1000
  | "Contributor" => 500
  | "Explorer" => 100
  | _ => 0

/-! ## On-chain transaction volume (`onchain/data_validator.py`)

`OnchainDataValidator._calculateTransactionVolume` iterates over combined
transaction/receipt records.  A record is modelled by `TxItem`: a possibly
missing aggregated `actions_agg.deposit`, a possibly missing list of actions,
and a possibly missing `receiver_account_id`.  An action carries a possibly
null `deposit`, the `action` and `method` fields, and its `args` string —
`_extractUsdcAmount(args)` (JSON/regex extraction of the `amount` field) is
modelled abstractly by the extracted amount `argsAmount`, since the claims
only concern how extracted amounts are aggregated. -/

/-- One entry of a record's `actions` list. -/
structure TxAction where
  deposit : Option ℚ
  action : Option String
  method : Option String
  argsAmount : ℚ
deriving DecidableEq

/-- One combined transaction/receipt record as consumed by
`_calculateTransactionVolume`. -/
structure TxItem where
  actions_agg_deposit : Option ℚ
  actions : Option (List TxAction)
  receiver_account_id : Option String
deriving DecidableEq

/-- `YOCTO_NEAR_TO_NEAR = 1e24`. -/
def YOCTO_NEAR_TO_NEAR : ℚ := 10 ^ 24

/-- `USDC_DECIMALS = 6`. -/
def USDC_DECIMALS : ℕ := 6

/-- The known USDC contract addresses of `OnchainDataValidator`. -/
def USDC_CONTRACT_ADDRESSES : List String :=
  ["17208628f84f5d6ad33f0da3bbbeb27ffcb398eac501a31bd6ad2011e36133a1",
   "usdc.fakes.testnet"]

/-- Python's `needle in hay` substring test. -/
def containsSubstr (needle hay : String) : Bool :=
  decide (needle.data <:+: hay.data)

/-- `TransactionVolumeMetrics` (onchain/models.py). -/
structure TransactionVolumeMetrics where
  total_volume_near : ℚ
  total_volume_usdc : ℚ
  transaction_count : ℕ
deriving DecidableEq

/-- NEAR-volume contribution of one record: the aggregated
`actions_agg.deposit` (when the key is present) plus every individual action
deposit (when `actions` is present), each divided by `1e24`.  Both branches of
the Python loop body execute for the same record. -/
def itemNearVolume (item : TxItem) : ℚ :=
  (match item.actions_agg_deposit with
   | some d => d / YOCTO_NEAR_TO_NEAR
   | none => 0) +
  (match item.actions with
   | none => 0
   | some acts =>
     (acts.map fun a => match a.deposit with
       | some d => d / YOCTO_NEAR_TO_NEAR
       | none => 0).sum)

/-- USDC extracted from a function-call action whose method is `ft_transfer`
or `withdrawUsdc` and whose extracted amount is positive. -/
def actionUsdcFromCall (a : TxAction) : ℚ :=
  if a.action = some "FUNCTION_CALL" ∧
      (a.method = some "ft_transfer" ∨ a.method = some "withdrawUsdc") then
    if 0 < a.argsAmount then a.argsAmount / 10 ^ USDC_DECIMALS else 0
  else 0

/-- USDC-volume contribution of one record: the function-call extraction plus,
when the receiver contains a known USDC contract address, a second pass over
all actions' extracted amounts. -/
def itemUsdcVolume (item : TxItem) : ℚ :=
  (match item.actions with
   | none => 0
   | some acts => (acts.map actionUsdcFromCall).sum) +
  (match item.receiver_account_id with
   | none => 0
   | some receiver =>
     if USDC_CONTRACT_ADDRESSES.any fun addr => containsSubstr addr receiver then
       match item.actions with
       | none => 0
       | some acts =>
         (acts.map fun a =>
           if 0 < a.argsAmount then a.argsAmount / 10 ^ USDC_DECIMALS else 0).sum
     else 0)

/-- `OnchainDataValidator._calculateTransactionVolume`: sums the per-record
contributions and counts every record. -/
def calculateTransactionVolume (data : List TxItem) : TransactionVolumeMetrics :=
  ⟨(data.map itemNearVolume).sum, (data.map itemUsdcVolume).sum, data.length⟩

/-! ## GitHub API client (`offchain/github_api_client.py`)

A network interaction is modelled by the response the server produces for the
successive page requests of one paginated fetch: `HttpResult.resp` carries the
HTTP status, whether the body contains the rate-limit phrase, and the decoded
JSON list; `HttpResult.netError` is a `requests.RequestException`. -/

/-- One HTTP response (or network failure) from the GitHub API. -/
inductive HttpResult (α : Type) where
  | resp (status : ℕ) (rateLimitBody : Bool) (data : List α)
  | netError
deriving DecidableEq

/-- `GitHubApiClient.makeRequest`: 404 → `None`; 403 with the rate-limit
phrase → raise; 403 otherwise → raise; any other non-200 → `None`; 200 →
decoded body; a network exception → `None`. -/
def makeRequest {α : Type} : HttpResult α → Except String (Option (List α))
  | .netError => .ok none
  | .resp status rl data =>
    if status = 404 then .ok none
    else if status = 403 then
      if rl then .error "GitHub API rate limit exceeded"
      else .error "Authentication failed"
    else if status ≠ 200 then .ok none
    else .ok (some data)

/-- `GitHubApiClient.makePaginatedRequest`: request successive pages,
accumulating `all_data`; stop on a `None` page or an empty page; stop after a
short page (fewer than `per_page` items); a raised exception propagates.  The
input list is the sequence of responses the server returns to the successive
requests. -/
def makePaginatedRequest {α : Type} (per_page : ℕ) :
    List (HttpResult α) → List α → Except String (List α)
  | [], all_data => .ok all_data
  | r :: rest, all_data =>
    match makeRequest r with
    | .error e => .error e
    | .ok none => .ok all_data
    | .ok (some data) =>
      if data.isEmpty then .ok all_data
      else if data.length < per_page then .ok (all_data ++ data)
      else makePaginatedRequest per_page rest (all_data ++ data)

/-! ## Commit collector (`offchain/collector/commit.py`) -/

/-- One raw commit record; `author_login` is `commit["author"]["login"]`,
`none` when the author object or its login is missing. -/
structure Commit where
  author_login : Option String
deriving DecidableEq

/-- `CommitAuthor` (offchain/models.py). -/
structure CommitAuthor where
  login : String
  count : ℕ
deriving DecidableEq

/-- `CommitMetrics` (offchain/models.py). -/
structure CommitMetrics where
  count : ℕ
  authors : List CommitAuthor
deriving DecidableEq

/-- Add `c` to a login's tally in an insertion-ordered counter, the semantics
of `Counter[login] += c`. -/
def bumpAuthorBy : List CommitAuthor → String → ℕ → List CommitAuthor
  | [], login, c => [⟨login, c⟩]
  | a :: rest, login, c =>
    if a.login = login then ⟨a.login, a.count + c⟩ :: rest
    else a :: bumpAuthorBy rest login c

/-- The login a commit is attributed to: the author's login, or the literal
"unknown" bucket. -/
def commitLogin (c : Commit) : String :=
  match c.author_login with
  | some l => l
  | none => "unknown"

/-- `CommitCollector._processCommitAuthors`: tally commits per login in a
`Counter` and list the (login, count) pairs. -/
def processCommitAuthors (commits_data : List Commit) : List CommitAuthor :=
  commits_data.foldl (fun acc c => bumpAuthorBy acc (commitLogin c) 1) []

/-- `CommitCollector.collectCommitData`: run the paginated fetch; on ANY
exception (including the fatal rate-limit error raised by `makeRequest`),
log and return a zero-valued `CommitMetrics`. -/
def collectCommitData (responses : List (HttpResult Commit)) : CommitMetrics :=
  match makePaginatedRequest 100 responses [] with
  | .error _ => ⟨0, []⟩
  | .ok commits_data => ⟨commits_data.length, processCommitAuthors commits_data⟩

/-! ## NearBlocks API client (`onchain/nearblocks_api_client.py`) -/

/-- One HTTP response (or network failure) from the NearBlocks API. -/
inductive NBResult (α : Type) where
  | resp (status : ℕ) (txns : List α)
  | netError
deriving DecidableEq

/-- `NearBlocksApiClient.fetchTransactionData`: 404 → stop and return what
was collected; 429 → wait and retry (the retried request consumes the next
response); 403 → raise; any other non-200 → raise `"API Error ..."` (the
modelled message drops the interpolated status/text); empty page → stop;
short page → stop after extending. -/
def fetchTransactionData {α : Type} (limit : ℕ) :
    List (NBResult α) → List α → Except String (List α)
  | [], all_transactions => .ok all_transactions
  | r :: rest, all_transactions =>
    match r with
    | .netError => .error "Network error"
    | .resp status txns =>
      if status = 404 then .ok all_transactions
      else if status = 429 then fetchTransactionData limit rest all_transactions
      else if status = 403 then .error "API access forbidden - invalid or missing API key"
      else if status ≠ 200 then .error "API Error"
      else if txns.isEmpty then .ok all_transactions
      else if txns.length < limit then .ok (all_transactions ++ txns)
      else fetchTransactionData limit rest (all_transactions ++ txns)

/-! ## Pull-request collector (`offchain/collector/pull_request.py`) -/

/-- One raw pull-request record as consumed by `_processPullRequestData`. -/
structure PullRequest where
  state : String
  merged_at : Option String
  user_login : Option String
  created_at : Option String
deriving DecidableEq

/-- `PullRequestMetrics` (offchain/models.py); `open_count` is the Python
field `open` (a Lean keyword); `authors` is the Python set in insertion
order. -/
structure PullRequestMetrics where
  open_count : ℕ
  merged : ℕ
  closed : ℕ
  authors : List String
deriving DecidableEq

/-- `set.add`: insertion-ordered set insertion. -/
def insertUnique (l : List String) (s : String) : List String :=
  if s ∈ l then l else l ++ [s]

/-- Lexicographic comparison on code points, the semantics of Python's `<=`
on strings. -/
def charListLe : List Char → List Char → Bool
  | [], _ => true
  | _ :: _, [] => false
  | a :: as, b :: bs => if a < b then true else if a = b then charListLe as bs else false

/-- `PullRequestCollector._isPullRequestInDateRange`: lexicographic
comparison `since <= created_at <= until` on ISO timestamps; `False` when
`created_at` is missing. -/
def isPullRequestInDateRange (pr : PullRequest) (since until_ : String) : Bool :=
  match pr.created_at with
  | none => false
  | some created_at =>
    charListLe since.data created_at.data && charListLe created_at.data until_.data

/-- The loop body of `_processPullRequestData`: skip records outside the date
range; record the author; then classify — `state == "open"` FIRST, else
`merged_at` non-null counts as merged, else closed. -/
def prStep (since until_ : String) (m : PullRequestMetrics) (pr : PullRequest) :
    PullRequestMetrics :=
  if ¬ isPullRequestInDateRange pr since until_ then m
  else
    let m2 := match pr.user_login with
      | some l => { m with authors := insertUnique m.authors l }
      | none => m
    if pr.state = "open" then { m2 with open_count := m2.open_count + 1 }
    else if pr.merged_at.isSome then { m2 with merged := m2.merged + 1 }
    else { m2 with closed := m2.closed + 1 }

/-- `PullRequestCollector._processPullRequestData`: fold the loop body over
all fetched pull requests starting from zero counts. -/
def processPullRequestData (pulls_data : List PullRequest) (since until_ : String) :
    PullRequestMetrics :=
  pulls_data.foldl (prStep since until_) ⟨0, 0, 0, []⟩

/-- An in-range PR with state "open". -/
def prIsOpenP (since until_ : String) (pr : PullRequest) : Bool :=
  isPullRequestInDateRange pr since until_ && pr.state == "open"

/-- An in-range PR with a non-"open" state and a non-null merge timestamp. -/
def prIsMergedP (since until_ : String) (pr : PullRequest) : Bool :=
  isPullRequestInDateRange pr since until_ && !(pr.state == "open") && pr.merged_at.isSome

/-- An in-range PR with a non-"open" state and a null merge timestamp. -/
def prIsClosedP (since until_ : String) (pr : PullRequest) : Bool :=
  isPullRequestInDateRange pr since until_ && !(pr.state == "open") && pr.merged_at.isNone

/-- A record with state "open" and a non-null merge timestamp, created inside
the range. -/
def openMergedPR : PullRequest :=
  ⟨"open", some "2024-01-10T00:00:00Z", some "alice", some "2024-01-05T00:00:00Z"⟩

/-! ## Data combiner (`offchain/data_combiner.py`, `offchain/models.py`)

`Counter` is modelled as an insertion-ordered association list (its lookup
semantics is exposed through `authorCount`); a Python `set` is modelled as an
insertion-ordered duplicate-free list whose meaning is membership.  The
`collection_date` fields (`datetime.now()`) are omitted. -/

/-- `ReviewMetrics` (offchain/models.py). -/
structure ReviewMetrics where
  count : ℕ
  authors : List String
deriving DecidableEq

/-- `IssueMetrics` (offchain/models.py); `open_count` is the Python field
`open`. -/
structure IssueMetrics where
  open_count : ℕ
  closed : ℕ
  participants : List String
deriving DecidableEq

/-- `RepositoryMetrics` (offchain/models.py), without `collection_date`. -/
structure RepositoryMetrics where
  repository_name : String
  commits : CommitMetrics
  pull_requests : PullRequestMetrics
  reviews : ReviewMetrics
  issues : IssueMetrics
deriving DecidableEq

/-- `CombinedMetrics` (offchain/models.py), without `collection_date`. -/
structure CombinedMetrics where
  commits : CommitMetrics
  pull_requests : PullRequestMetrics
  reviews : ReviewMetrics
  issues : IssueMetrics
  repositories_count : ℕ
deriving DecidableEq

/-- `DataCombiner._createEmptyCombinedMetrics`. -/
def createEmptyCombinedMetrics : CombinedMetrics :=
  ⟨⟨0, []⟩, ⟨0, 0, 0, []⟩, ⟨0, []⟩, ⟨0, 0, []⟩, 0⟩

/-- `DataCombiner.combineRepositoryMetrics`: empty input short-circuits to the
all-zero record; otherwise one pass over the repositories sums every integer
counter, accumulates commit-author counts in a `Counter`, and unions the
author/participant sets. -/
def combineRepositoryMetrics (repositories_metrics : List RepositoryMetrics) : CombinedMetrics :=
  if repositories_metrics.isEmpty then createEmptyCombinedMetrics
  else
    ⟨⟨repositories_metrics.foldl (fun n r => n + r.commits.count) 0,
      repositories_metrics.foldl
        (fun acc r => r.commits.authors.foldl (fun a ca => bumpAuthorBy a ca.login ca.count) acc)
        []⟩,
     ⟨repositories_metrics.foldl (fun n r => n + r.pull_requests.open_count) 0,
      repositories_metrics.foldl (fun n r => n + r.pull_requests.merged) 0,
      repositories_metrics.foldl (fun n r => n + r.pull_requests.closed) 0,
      repositories_metrics.foldl (fun s r => r.pull_requests.authors.foldl insertUnique s) []⟩,
     ⟨repositories_metrics.foldl (fun n r => n + r.reviews.count) 0,
      repositories_metrics.foldl (fun s r => r.reviews.authors.foldl insertUnique s) []⟩,
     ⟨repositories_metrics.foldl (fun n r => n + r.issues.open_count) 0,
      repositories_metrics.foldl (fun n r => n + r.issues.closed) 0,
      repositories_metrics.foldl (fun s r => r.issues.participants.foldl insertUnique s) []⟩,
     repositories_metrics.length⟩

/-- The tally a (login → count) association list assigns to one login:
the lookup semantics of the `Counter`. -/
def authorCount (l : List CommitAuthor) (login : String) : ℕ :=
  (l.map fun a => if a.login = login then a.count else 0).sum

/-- The conjunction asserted by the combiner claim: the empty input yields the
all-zero `CombinedMetrics` with `repositories_count = 0`, and for the two
input lists all integer totals, per-login commit author tallies, and
author/participant sets agree. -/
def CombinePermProperty (l1 l2 : List RepositoryMetrics) : Prop :=
  combineRepositoryMetrics [] = ⟨⟨0, []⟩, ⟨0, 0, 0, []⟩, ⟨0, []⟩, ⟨0, 0, []⟩, 0⟩ ∧
  (combineRepositoryMetrics l1).commits.count = (combineRepositoryMetrics l2).commits.count ∧
  (combineRepositoryMetrics l1).pull_requests.open_count =
    (combineRepositoryMetrics l2).pull_requests.open_count ∧
  (combineRepositoryMetrics l1).pull_requests.merged =
    (combineRepositoryMetrics l2).pull_requests.merged ∧
  (combineRepositoryMetrics l1).pull_requests.closed =
    (combineRepositoryMetrics l2).pull_requests.closed ∧
  (combineRepositoryMetrics l1).reviews.count = (combineRepositoryMetrics l2).reviews.count ∧
  (combineRepositoryMetrics l1).issues.open_count =
    (combineRepositoryMetrics l2).issues.open_count ∧
  (combineRepositoryMetrics l1).issues.closed = (combineRepositoryMetrics l2).issues.closed ∧
  (combineRepositoryMetrics l1).repositories_count =
    (combineRepositoryMetrics l2).repositories_count ∧
  (∀ login, authorCount (combineRepositoryMetrics l1).commits.authors login =
    authorCount (combineRepositoryMetrics l2).commits.authors login) ∧
  (∀ x, x ∈ (combineRepositoryMetrics l1).pull_requests.authors ↔
    x ∈ (combineRepositoryMetrics l2).pull_requests.authors) ∧
  (∀ x, x ∈ (combineRepositoryMetrics l1).reviews.authors ↔
    x ∈ (combineRepositoryMetrics l2).reviews.authors) ∧
  (∀ x, x ∈ (combineRepositoryMetrics l1).issues.participants ↔
    x ∈ (combineRepositoryMetrics l2).issues.participants)

/-! ## Off-chain controller (`offchain/offchain_controller.py`, `offchain/models.py`)

The network-dependent behaviour of one batch run is captured by a
`CollectorEnv`: the result of `checkRepositoryExists` per repository, and the
metrics the four collectors (which catch their own exceptions and never
raise) produce per repository. -/

/-- `RepositoryInfo` (offchain/models.py). -/
structure RepositoryInfo where
  owner : String
  name : String
  full_name : String
deriving DecidableEq

/-- `full_name.split("/", 1)`: split at the first slash, `none` (a
`ValueError` on unpacking) when there is no slash. -/
def breakSlash : List Char → Option (List Char × List Char)
  | [] => none
  | c :: cs =>
    if c = '/' then some ([], cs)
    else
      match breakSlash cs with
      | none => none
      | some (o, n) => some (c :: o, n)

/-- `RepositoryInfo.from_full_name`: unpack `owner, name = full_name.split("/", 1)`;
raises (returns `none`) when the string contains no slash. -/
def RepositoryInfo.from_full_name (full_name : String) : Option RepositoryInfo :=
  match breakSlash full_name.data with
  | none => none
  | some (o, n) => some ⟨String.mk o, String.mk n, full_name⟩

/-- The environment of one batch run: what `checkRepositoryExists` answers
and what the four collectors return for each repository. -/
structure CollectorEnv where
  repoExists : String → Bool
  commitData : String → CommitMetrics
  prData : String → PullRequestMetrics
  reviewData : String → ReviewMetrics
  issueData : String → IssueMetrics

/-- `OffchainController._createEmptyRepositoryMetrics`. -/
def createEmptyRepositoryMetrics (repository_name : String) : RepositoryMetrics :=
  ⟨repository_name, ⟨0, []⟩, ⟨0, 0, 0, []⟩, ⟨0, []⟩, ⟨0, 0, []⟩⟩

/-- `OffchainController._collectSingleRepositoryData`: parse the name (an
unpacking error propagates), check existence — a missing repository yields
the all-zero record, NOT an error — then run the collectors. -/
def collectSingleRepositoryData (env : CollectorEnv) (repository_name : String) :
    Except String RepositoryMetrics :=
  match RepositoryInfo.from_full_name repository_name with
  | none => .error "not enough values to unpack"
  | some repository =>
    if env.repoExists repository.full_name then
      .ok ⟨repository_name, env.commitData repository_name, env.prData repository_name,
           env.reviewData repository_name, env.issueData repository_name⟩
    else .ok (createEmptyRepositoryMetrics repository_name)

/-- The outcome of `OffchainController.collectRepositoryData`: the combined
metrics, the `successful_collections` counter and the number of attempted
repositories. -/
structure BatchResult where
  combined : CombinedMetrics
  successful_collections : ℕ
  attempted : ℕ
deriving DecidableEq

/-- `OffchainController.collectRepositoryData`: per-repository loop that
appends each successful record and counts it, skips (and only logs) a
repository whose collection raised, then combines the collected records. -/
def collectRepositoryData (env : CollectorEnv) (repository_names : List String) :
    BatchResult :=
  let repositories_metrics :=
    repository_names.filterMap fun n => (collectSingleRepositoryData env n).toOption
  ⟨combineRepositoryMetrics repositories_metrics, repositories_metrics.length,
   repository_names.length⟩

/-- An environment in which every existence check returns not-found (404). -/
def env404 : CollectorEnv :=
  ⟨fun _ => false, fun _ => ⟨0, []⟩, fun _ => ⟨0, 0, 0, []⟩, fun _ => ⟨0, []⟩,
   fun _ => ⟨0, 0, []⟩⟩

lemma roundHalfEven_intCast (n : ℤ) : roundHalfEven (n : ℚ) = n := by
  unfold roundHalfEven
  rw [Int.floor_intCast]
  norm_num

lemma roundHalfEven_le_floor_add_one (x : ℚ) : roundHalfEven x ≤ ⌊x⌋ + 1 := by
  unfold roundHalfEven
  split_ifs <;> omega

lemma floor_le_roundHalfEven (x : ℚ) : ⌊x⌋ ≤ roundHalfEven x := by
  unfold roundHalfEven
  split_ifs <;> omega

lemma roundHalfEven_mono {x y : ℚ} (h : x ≤ y) : roundHalfEven x ≤ roundHalfEven y := by
  have hf : ⌊x⌋ ≤ ⌊y⌋ := Int.floor_mono h
  rcases eq_or_lt_of_le hf with heq | hlt
  · have hxy : x - (⌊x⌋ : ℚ) ≤ y - (⌊y⌋ : ℚ) := by
      rw [← heq]; linarith
    unfold roundHalfEven
    rw [← heq]
    split_ifs <;> first | omega | (exfalso; rw [← heq] at hxy; linarith)
  · calc roundHalfEven x ≤ ⌊x⌋ + 1 := roundHalfEven_le_floor_add_one x
    _ ≤ ⌊y⌋ := by omega
    _ ≤ roundHalfEven y := floor_le_roundHalfEven y

lemma pyRound2_mono {x y : ℚ} (h : x ≤ y) : pyRound2 x ≤ pyRound2 y := by
  unfold pyRound2
  have := roundHalfEven_mono (mul_le_mul_of_nonneg_right h (by norm_num : (0:ℚ) ≤ 100))
  have hcast : ((roundHalfEven (x * 100) : ℚ)) ≤ ((roundHalfEven (y * 100) : ℚ)) := by
    exact_mod_cast this
  linarith

lemma pyRound2_intCast (n : ℤ) : pyRound2 (n : ℚ) = n := by
  unfold pyRound2
  have h : (n : ℚ) * 100 = ((n * 100 : ℤ) : ℚ) := by push_cast; ring
  rw [h, roundHalfEven_intCast]
  push_cast
  ring

lemma pyRound2_natCast (n : ℕ) : pyRound2 (n : ℚ) = n := by
  have := pyRound2_intCast (n : ℤ)
  exact_mod_cast this

lemma pyRound2_nonneg {q : ℚ} (h : 0 ≤ q) : 0 ≤ pyRound2 q := by
  have h0 : pyRound2 ((0 : ℤ) : ℚ) ≤ pyRound2 q := pyRound2_mono (by exact_mod_cast h)
  rwa [pyRound2_intCast] at h0

lemma pyRound2_le_intCast {q : ℚ} {n : ℤ} (h : q ≤ (n : ℚ)) : pyRound2 q ≤ (n : ℚ) := by
  have := pyRound2_mono h
  rwa [pyRound2_intCast] at this

lemma pyRound2_eq_natCast {q : ℚ} (n : ℕ) (h : q = (n : ℚ)) : pyRound2 q = (n : ℚ) := by
  rw [h, pyRound2_natCast]

lemma comp_nonneg {x t p : ℚ} (hx : 0 ≤ x) (ht : 0 < t) (hp : 0 ≤ p) :
    0 ≤ min (x / t) 1 * p := by
  have h0 : 0 ≤ min (x / t) 1 := le_min (div_nonneg hx ht.le) (by norm_num)
  exact mul_nonneg h0 hp

lemma comp_le_max {x t p : ℚ} (hp : 0 ≤ p) : min (x / t) 1 * p ≤ p := by
  have h1 : min (x / t) 1 ≤ 1 := min_le_right _ _
  calc min (x / t) 1 * p ≤ 1 * p := mul_le_mul_of_nonneg_right h1 hp
  _ = p := one_mul p

lemma comp_mono {x y t p : ℚ} (hxy : x ≤ y) (ht : 0 < t) (hp : 0 ≤ p) :
    min (x / t) 1 * p ≤ min (y / t) 1 * p := by
  have h : min (x / t) 1 ≤ min (y / t) 1 :=
    min_le_min (div_le_div_of_nonneg_right hxy ht.le) le_rfl
  exact mul_le_mul_of_nonneg_right h hp

lemma comp_clamp {x t p : ℚ} (hx : t ≤ x) (ht : 0 < t) : min (x / t) 1 * p = p := by
  have h : (1 : ℚ) ≤ x / t := (one_le_div ht).mpr hx
  rw [min_eq_right h, one_mul]

lemma pyRound2_comp_nonneg {x t p : ℚ} (hx : 0 ≤ x) (ht : 0 < t) (hp : 0 ≤ p) :
    0 ≤ pyRound2 (min (x / t) 1 * p) :=
  pyRound2_nonneg (comp_nonneg hx ht hp)

lemma pyRound2_fix_natCast (n : ℕ) {c : ℚ} (hc : (n : ℚ) = c) : pyRound2 c = c := by
  rw [← hc, pyRound2_natCast]

lemma pyRound2_le_natCast (n : ℕ) {q c : ℚ} (hc : (n : ℚ) = c) (h : q ≤ c) :
    pyRound2 q ≤ c := by
  have := pyRound2_mono h
  rwa [pyRound2_fix_natCast n hc] at this

/-- C1: for non-negative extracted raw metrics, every component score of
`calculateOffchainScore` and `calculateOnchainScore` lies between 0 and its
max points (28/22/16/14 off-chain; 8/8/4 on-chain), the off-chain total is at
most 80, the on-chain total at most 20, the combined `calculateTotalRewards`
total at most 100, and each component is monotonically non-decreasing in its
raw metric and constant once the metric reaches its threshold. -/
theorem cohort_score_bounds_monotone_clamped
    (m m' : OffchainInput) (n n' : OnchainInput)
    (hm : m.Nonneg) (hn : n.Nonneg) : CohortScoreProperty m m' n n' := by
  obtain ⟨hc, hp, hr, hi⟩ := hm
  obtain ⟨hnv, hnu, hcc, hw⟩ := hn
  have offc : (calculateOffchainScore m).commits ≤ 28 :=
    pyRound2_le_natCast 28 (by norm_num) (comp_le_max (by norm_num))
  have offp : (calculateOffchainScore m).pullRequests ≤ 22 :=
    pyRound2_le_natCast 22 (by norm_num) (comp_le_max (by norm_num))
  have offr : (calculateOffchainScore m).reviews ≤ 16 :=
    pyRound2_le_natCast 16 (by norm_num) (comp_le_max (by norm_num))
  have offi : (calculateOffchainScore m).issues ≤ 14 :=
    pyRound2_le_natCast 14 (by norm_num) (comp_le_max (by norm_num))
  have offtot : (calculateOffchainScore m).total ≤ 80 := by
    refine pyRound2_le_natCast 80 (by norm_num) ?_
    have h1 : min (m.commits_count / 100) 1 * 28 ≤ 28 := comp_le_max (by norm_num)
    have h2 : min (m.pull_requests_merged / 25) 1 * 22 ≤ 22 := comp_le_max (by norm_num)
    have h3 : min (m.reviews_count / 30) 1 * 16 ≤ 16 := comp_le_max (by norm_num)
    have h4 : min (m.issues_closed / 30) 1 * 14 ≤ 14 := comp_le_max (by norm_num)
    linarith
  have offtot0 : 0 ≤ (calculateOffchainScore m).total := by
    refine pyRound2_nonneg ?_
    have h1 : 0 ≤ min (m.commits_count / 100) 1 * 28 := comp_nonneg hc (by norm_num) (by norm_num)
    have h2 : 0 ≤ min (m.pull_requests_merged / 25) 1 * 22 := comp_nonneg hp (by norm_num) (by norm_num)
    have h3 : 0 ≤ min (m.reviews_count / 30) 1 * 16 := comp_nonneg hr (by norm_num) (by norm_num)
    have h4 : 0 ≤ min (m.issues_closed / 30) 1 * 14 := comp_nonneg hi (by norm_num) (by norm_num)
    linarith
  have onv : (calculateOnchainScore n).transactionVolume ≤ 8 :=
    pyRound2_le_natCast 8 (by norm_num) (comp_le_max (by norm_num))
  have onc : (calculateOnchainScore n).contractCalls ≤ 8 :=
    pyRound2_le_natCast 8 (by norm_num) (comp_le_max (by norm_num))
  have onw : (calculateOnchainScore n).uniqueWallets ≤ 4 :=
    pyRound2_le_natCast 4 (by norm_num) (comp_le_max (by norm_num))
  have husd : 0 ≤ n.total_volume_near * 5 + n.total_volume_usdc := by linarith
  have ontot : (calculateOnchainScore n).total ≤ 20 := by
    refine pyRound2_le_natCast 20 (by norm_num) ?_
    have h1 : min ((n.total_volume_near * 5 + n.total_volume_usdc) / 10000) 1 * 8 ≤ 8 :=
      comp_le_max (by norm_num)
    have h2 : min (n.unique_contract_calls / 500) 1 * 8 ≤ 8 := comp_le_max (by norm_num)
    have h3 : min (n.unique_wallets / 100) 1 * 4 ≤ 4 := comp_le_max (by norm_num)
    linarith
  have ontot0 : 0 ≤ (calculateOnchainScore n).total := by
    refine pyRound2_nonneg ?_
    have h1 : 0 ≤ min ((n.total_volume_near * 5 + n.total_volume_usdc) / 10000) 1 * 8 :=
      comp_nonneg husd (by norm_num) (by norm_num)
    have h2 : 0 ≤ min (n.unique_contract_calls / 500) 1 * 8 :=
      comp_nonneg hcc (by norm_num) (by norm_num)
    have h3 : 0 ≤ min (n.unique_wallets / 100) 1 * 4 :=
      comp_nonneg hw (by norm_num) (by norm_num)
    linarith
  refine ⟨⟨pyRound2_comp_nonneg hc (by norm_num) (by norm_num), offc⟩,
    ⟨pyRound2_comp_nonneg hp (by norm_num) (by norm_num), offp⟩,
    ⟨pyRound2_comp_nonneg hr (by norm_num) (by norm_num), offr⟩,
    ⟨pyRound2_comp_nonneg hi (by norm_num) (by norm_num), offi⟩,
    ⟨offtot0, offtot⟩,
    ⟨pyRound2_comp_nonneg husd (by norm_num) (by norm_num), onv⟩,
    ⟨pyRound2_comp_nonneg hcc (by norm_num) (by norm_num), onc⟩,
    ⟨pyRound2_comp_nonneg hw (by norm_num) (by norm_num), onw⟩,
    ⟨ontot0, ontot⟩, ?_, ?_, ?_, ?_, ?_, ?_, ?_, ?_, ?_, ?_, ?_, ?_, ?_, ?_, ?_⟩
  · exact pyRound2_le_natCast 100 (by norm_num) (by linarith)
  · exact fun h => pyRound2_mono (comp_mono h (by norm_num) (by norm_num))
  · exact fun h => pyRound2_mono (comp_mono h (by norm_num) (by norm_num))
  · exact fun h => pyRound2_mono (comp_mono h (by norm_num) (by norm_num))
  · exact fun h => pyRound2_mono (comp_mono h (by norm_num) (by norm_num))
  · exact fun h1 h2 => pyRound2_mono (comp_mono (by linarith) (by norm_num) (by norm_num))
  · exact fun h => pyRound2_mono (comp_mono h (by norm_num) (by norm_num))
  · exact fun h => pyRound2_mono (comp_mono h (by norm_num) (by norm_num))
  · intro h
    show pyRound2 _ = _
    rw [comp_clamp h (by norm_num)]
    exact pyRound2_fix_natCast 28 (by norm_num)
  · intro h
    show pyRound2 _ = _
    rw [comp_clamp h (by norm_num)]
    exact pyRound2_fix_natCast 22 (by norm_num)
  · intro h
    show pyRound2 _ = _
    rw [comp_clamp h (by norm_num)]
    exact pyRound2_fix_natCast 16 (by norm_num)
  · intro h
    show pyRound2 _ = _
    rw [comp_clamp h (by norm_num)]
    exact pyRound2_fix_natCast 14 (by norm_num)
  · intro h
    show pyRound2 _ = _
    rw [comp_clamp h (by norm_num)]
    exact pyRound2_fix_natCast 8 (by norm_num)
  · intro h
    show pyRound2 _ = _
    rw [comp_clamp h (by norm_num)]
    exact pyRound2_fix_natCast 8 (by norm_num)
  · intro h
    show pyRound2 _ = _
    rw [comp_clamp h (by norm_num)]
    exact pyRound2_fix_natCast 4 (by norm_num)

/-- Witness for the scoring claim at concrete inputs. -/
theorem cohort_score_bounds_monotone_clamped_witness :
    CohortScoreProperty ⟨0, 0, 0, 0⟩ ⟨100, 25, 30, 30⟩ ⟨0, 0, 0, 0⟩ ⟨2000, 0, 500, 100⟩ :=
  cohort_score_bounds_monotone_clamped _ _ _ _
    ⟨by norm_num, by norm_num, by norm_num, by norm_num⟩
    ⟨by norm_num, by norm_num, by norm_num, by norm_num⟩

/-- C2: the example scenario: 100 commits, 25 merged PRs, 30 reviews, 30 closed
issues scores exactly 80.0 with breakdown 28 + 22 + 16 + 14; combined with an
absent on-chain category (score 0), `calculateTotalRewards` yields total 80.0,
level name "Gold" and monetary reward 6000. -/
theorem gold_example_scenario :
    (calculateOffchainScore ⟨100, 25, 30, 30⟩).total = 80 ∧
    (calculateOffchainScore ⟨100, 25, 30, 30⟩).commits = 28 ∧
    (calculateOffchainScore ⟨100, 25, 30, 30⟩).pullRequests = 22 ∧
    (calculateOffchainScore ⟨100, 25, 30, 30⟩).reviews = 16 ∧
    (calculateOffchainScore ⟨100, 25, 30, 30⟩).issues = 14 ∧
    (calculateTotalRewards none (some ⟨100, 25, 30, 30⟩)).score_total = 80 ∧
    (calculateTotalRewards none (some ⟨100, 25, 30, 30⟩)).level.name = "Gold" ∧
    (calculateTotalRewards none (some ⟨100, 25, 30, 30⟩)).total_reward = 6000 := by
  have htot : (calculateOffchainScore ⟨100, 25, 30, 30⟩).total = 80 := by
    show pyRound2 _ = _
    rw [pyRound2_eq_natCast 80 (by norm_num)]
    norm_num
  refine ⟨htot, ?_, ?_, ?_, ?_, ?_, ?_, ?_⟩
  · show pyRound2 _ = _
    rw [pyRound2_eq_natCast 28 (by norm_num)]
    norm_num
  · show pyRound2 _ = _
    rw [pyRound2_eq_natCast 22 (by norm_num)]
    norm_num
  · show pyRound2 _ = _
    rw [pyRound2_eq_natCast 16 (by norm_num)]
    norm_num
  · show pyRound2 _ = _
    rw [pyRound2_eq_natCast 14 (by norm_num)]
    norm_num
  · show pyRound2 (0 + (calculateOffchainScore ⟨100, 25, 30, 30⟩).total) = 80
    rw [htot]
    rw [pyRound2_eq_natCast 80 (by norm_num)]
    norm_num
  · show (determineLevel (0 + (calculateOffchainScore ⟨100, 25, 30, 30⟩).total)).name = "Gold"
    rw [htot]
    norm_num [determineLevel]
  · show calculateMonetaryReward (0 + (calculateOffchainScore ⟨100, 25, 30, 30⟩).total) = 6000
    rw [htot]
    norm_num [calculateMonetaryReward]

/-- C9: for every score, `calculateMonetaryReward` returns exactly the reward
amount of the tier that `determineLevel` assigns to the same score: the two
ladders use identical boundary conditions and can never disagree. -/
theorem monetary_reward_matches_level (score : ℚ) :
    calculateMonetaryReward score = tierReward (determineLevel score).name := by
  unfold calculateMonetaryReward determineLevel
  split_ifs <;> rfl

/-- Witness for the tier/reward agreement at a concrete score. -/
theorem monetary_reward_matches_level_witness :
    calculateMonetaryReward 72 = tierReward (determineLevel 72).name :=
  monetary_reward_matches_level 72

/-- C3 counterexample: a record carrying an aggregated deposit of `1e24`
yoctoNEAR and one action with the same deposit of `1e24` yields a NEAR volume
of 2, not 1 — the deposit IS counted twice, contradicting the claim that
per-action deposits are only used when `actions_agg.deposit` is absent. -/
theorem near_deposit_double_count_counterexample :
    (calculateTransactionVolume
        [⟨some (10 ^ 24), some [⟨some (10 ^ 24), none, none, 0⟩], none⟩]).total_volume_near
      = 2 ∧
    (calculateTransactionVolume
        [⟨some (10 ^ 24), some [⟨some (10 ^ 24), none, none, 0⟩], none⟩]).total_volume_near
      ≠ 1 := by
  constructor
  · norm_num [calculateTransactionVolume, itemNearVolume, YOCTO_NEAR_TO_NEAR]
  · norm_num [calculateTransactionVolume, itemNearVolume, YOCTO_NEAR_TO_NEAR]

/-- C3 amended: the NEAR volume of a record sums BOTH the aggregated
`actions_agg.deposit` (when present) and every per-action deposit, each
divided by `10^24`; only when `actions_agg.deposit` is absent does the
contribution come from the per-action deposits alone. -/
theorem near_volume_sums_agg_and_actions (d : ℚ) (acts : List TxAction)
    (recv : Option String) (rest : List TxItem) :
    (calculateTransactionVolume (⟨some d, some acts, recv⟩ :: rest)).total_volume_near =
      d / 10 ^ 24 +
      (acts.map fun a => match a.deposit with
        | some x => x / 10 ^ 24
        | none => 0).sum +
      (calculateTransactionVolume rest).total_volume_near ∧
    (calculateTransactionVolume (⟨none, some acts, recv⟩ :: rest)).total_volume_near =
      (acts.map fun a => match a.deposit with
        | some x => x / 10 ^ 24
        | none => 0).sum +
      (calculateTransactionVolume rest).total_volume_near := by
  constructor
  · simp [calculateTransactionVolume, itemNearVolume, YOCTO_NEAR_TO_NEAR]
  · simp [calculateTransactionVolume, itemNearVolume, YOCTO_NEAR_TO_NEAR]

/-- C4 counterexample: a 403 response whose body carries the rate-limit phrase
makes `makeRequest`/`makePaginatedRequest` raise, but `collectCommitData`
catches the exception and returns the zero-valued metrics record — the error
does not propagate out of the pipeline, contradicting the claim. -/
theorem rate_limit_swallowed_counterexample :
    makePaginatedRequest 100 [HttpResult.resp 403 true ([] : List Commit)] [] =
      Except.error "GitHub API rate limit exceeded" ∧
    collectCommitData [HttpResult.resp 403 true []] = ⟨0, []⟩ :=
  ⟨rfl, rfl⟩

/-- C4 amended: a 403 rate-limit response raises a fatal error that propagates
through `makePaginatedRequest`, but `collectCommitData` catches every
exception and substitutes the zero-valued `CommitMetrics`; the run is not
terminated. -/
theorem rate_limit_fatal_caught_at_collector
    (d : List Commit) (rest : List (HttpResult Commit)) (acc : List Commit)
    (responses : List (HttpResult Commit)) (e : String)
    (h : makePaginatedRequest 100 responses [] = Except.error e) :
    makePaginatedRequest 100 (HttpResult.resp 403 true d :: rest) acc =
      Except.error "GitHub API rate limit exceeded" ∧
    collectCommitData responses = ⟨0, []⟩ := by
  constructor
  · rfl
  · unfold collectCommitData
    rw [h]

/-- Witness for the amended rate-limit behaviour at a concrete response. -/
theorem rate_limit_fatal_caught_at_collector_witness :
    makePaginatedRequest 100 [HttpResult.resp 403 true ([] : List Commit)] [] =
      Except.error "GitHub API rate limit exceeded" ∧
    collectCommitData [HttpResult.resp 403 true []] = ⟨0, []⟩ :=
  rate_limit_fatal_caught_at_collector [] [] [] [HttpResult.resp 403 true []]
    "GitHub API rate limit exceeded" rfl

/-- C5 counterexample: after one full page, an HTTP 500 from the NearBlocks
client raises an error instead of returning the two already-collected records
as a partial result — the claim fails for the chain-indexer client. -/
theorem nearblocks_other_status_raises_counterexample :
    fetchTransactionData 2 [NBResult.resp 200 [1, 2], NBResult.resp 500 []] ([] : List ℕ) =
      Except.error "API Error" :=
  rfl

/-- C5 amended: an HTTP status that is not 200, 404, 403 (nor GitHub's
untreated 429) stops the GitHub client's pagination and returns the records
collected so far without raising; the NearBlocks client instead RAISES an
error on a status that is not 200, 404, 429 or 403, discarding the partial
result. -/
theorem other_status_partial_github_raises_nearblocks {α : Type}
    (status : ℕ) (rl : Bool) (d : List α)
    (rest : List (HttpResult α)) (acc : List α)
    (nstatus : ℕ) (txns : List α) (nrest : List (NBResult α)) (nacc : List α)
    (h200 : status ≠ 200) (h404 : status ≠ 404) (h403 : status ≠ 403)
    (g200 : nstatus ≠ 200) (g404 : nstatus ≠ 404) (g429 : nstatus ≠ 429)
    (g403 : nstatus ≠ 403) :
    makePaginatedRequest 100 (HttpResult.resp status rl d :: rest) acc = Except.ok acc ∧
    fetchTransactionData 100 (NBResult.resp nstatus txns :: nrest) nacc =
      Except.error "API Error" := by
  constructor
  · unfold makePaginatedRequest makeRequest
    simp [h200, h404, h403]
  · unfold fetchTransactionData
    simp [g200, g404, g429, g403]

/-- Witness for the pagination error policy at concrete 500 responses. -/
theorem other_status_partial_github_raises_nearblocks_witness :
    makePaginatedRequest 100 [HttpResult.resp 500 false [true]] [false] = Except.ok [false] ∧
    fetchTransactionData 100 [NBResult.resp 500 [true]] [false] =
      Except.error "API Error" :=
  other_status_partial_github_raises_nearblocks 500 false [true] [] [false]
    500 [true] [] [false]
    (by decide) (by decide) (by decide) (by decide) (by decide) (by decide) (by decide)

lemma prStep_open_count (since until_ : String) (m : PullRequestMetrics) (pr : PullRequest) :
    (prStep since until_ m pr).open_count =
      m.open_count + (if prIsOpenP since until_ pr then 1 else 0) := by
  unfold prStep prIsOpenP
  rcases h : isPullRequestInDateRange pr since until_ <;>
    rcases pr.user_login <;> by_cases hs : pr.state = "open" <;>
    rcases hm : pr.merged_at <;> simp [h, hs, hm]

lemma prStep_merged (since until_ : String) (m : PullRequestMetrics) (pr : PullRequest) :
    (prStep since until_ m pr).merged =
      m.merged + (if prIsMergedP since until_ pr then 1 else 0) := by
  unfold prStep prIsMergedP
  rcases h : isPullRequestInDateRange pr since until_ <;>
    rcases pr.user_login <;> by_cases hs : pr.state = "open" <;>
    rcases hm : pr.merged_at <;> simp [h, hs, hm]

lemma prStep_closed (since until_ : String) (m : PullRequestMetrics) (pr : PullRequest) :
    (prStep since until_ m pr).closed =
      m.closed + (if prIsClosedP since until_ pr then 1 else 0) := by
  unfold prStep prIsClosedP
  rcases h : isPullRequestInDateRange pr since until_ <;>
    rcases pr.user_login <;> by_cases hs : pr.state = "open" <;>
    rcases hm : pr.merged_at <;> simp [h, hs, hm]

lemma foldl_prStep_open_count (since until_ : String) (pulls : List PullRequest) :
    ∀ m : PullRequestMetrics,
      (pulls.foldl (prStep since until_) m).open_count =
        m.open_count + pulls.countP (prIsOpenP since until_) := by
  induction pulls with
  | nil => intro m; simp
  | cons pr rest ih =>
    intro m
    rw [List.foldl_cons, ih, prStep_open_count, List.countP_cons]
    by_cases h : prIsOpenP since until_ pr = true <;> simp [h] <;> omega

lemma foldl_prStep_merged (since until_ : String) (pulls : List PullRequest) :
    ∀ m : PullRequestMetrics,
      (pulls.foldl (prStep since until_) m).merged =
        m.merged + pulls.countP (prIsMergedP since until_) := by
  induction pulls with
  | nil => intro m; simp
  | cons pr rest ih =>
    intro m
    rw [List.foldl_cons, ih, prStep_merged, List.countP_cons]
    by_cases h : prIsMergedP since until_ pr = true <;> simp [h] <;> omega

lemma foldl_prStep_closed (since until_ : String) (pulls : List PullRequest) :
    ∀ m : PullRequestMetrics,
      (pulls.foldl (prStep since until_) m).closed =
        m.closed + pulls.countP (prIsClosedP since until_) := by
  induction pulls with
  | nil => intro m; simp
  | cons pr rest ih =>
    intro m
    rw [List.foldl_cons, ih, prStep_closed, List.countP_cons]
    by_cases h : prIsClosedP since until_ pr = true <;> simp [h] <;> omega

/-- C7 counterexample: a pull request whose state is "open" but whose
`merged_at` is non-null is counted as open, not merged — the merge timestamp
does NOT take precedence over the state field, contradicting the claimed
"if and only if". -/
theorem merged_at_not_precedent_counterexample :
    isPullRequestInDateRange openMergedPR "2024-01-01T00:00:00Z" "2024-01-31T23:59:59Z" = true ∧
    openMergedPR.merged_at.isSome = true ∧
    (processPullRequestData [openMergedPR] "2024-01-01T00:00:00Z" "2024-01-31T23:59:59Z").merged
      = 0 ∧
    (processPullRequestData [openMergedPR] "2024-01-01T00:00:00Z" "2024-01-31T23:59:59Z").open_count
      = 1 := by
  refine ⟨by decide, rfl, ?_, ?_⟩ <;> decide

/-- C7 amended: within the date range, a PR counts toward `open` iff its state
is "open"; among the rest, it counts toward `merged` iff its merge timestamp
is non-null, and toward `closed` otherwise — the state field takes precedence
over the merge timestamp. -/
theorem pr_classification (pulls : List PullRequest) (since until_ : String) :
    (processPullRequestData pulls since until_).open_count =
      pulls.countP (prIsOpenP since until_) ∧
    (processPullRequestData pulls since until_).merged =
      pulls.countP (prIsMergedP since until_) ∧
    (processPullRequestData pulls since until_).closed =
      pulls.countP (prIsClosedP since until_) := by
  refine ⟨?_, ?_, ?_⟩
  · rw [processPullRequestData, foldl_prStep_open_count]
    simp
  · rw [processPullRequestData, foldl_prStep_merged]
    simp
  · rw [processPullRequestData, foldl_prStep_closed]
    simp

lemma foldl_add_eq_sum {β : Type} (f : β → ℕ) (l : List β) :
    ∀ init : ℕ, l.foldl (fun n r => n + f r) init = init + (l.map f).sum := by
  induction l with
  | nil => intro init; simp
  | cons r tl ih =>
    intro init
    rw [List.foldl_cons, ih]
    simp only [List.map_cons, List.sum_cons]
    omega

lemma authorCount_bumpAuthorBy :
    ∀ (a : List CommitAuthor) (login q : String) (c : ℕ),
      authorCount (bumpAuthorBy a login c) q =
        authorCount a q + (if login = q then c else 0)
  | [], login, q, c => by
    simp only [bumpAuthorBy, authorCount, List.map_cons, List.map_nil, List.sum_cons,
      List.sum_nil]
    omega
  | hd :: tl, login, q, c => by
    by_cases h : hd.login = login
    · simp only [bumpAuthorBy]
      rw [if_pos h]
      subst h
      simp only [authorCount, List.map_cons, List.sum_cons]
      split_ifs <;> omega
    · simp only [bumpAuthorBy]
      rw [if_neg h]
      simp only [authorCount, List.map_cons, List.sum_cons]
      have := authorCount_bumpAuthorBy tl login q c
      simp only [authorCount] at this
      omega

lemma authorCount_foldl_bump (la : List CommitAuthor) :
    ∀ (acc : List CommitAuthor) (q : String),
      authorCount (la.foldl (fun a ca => bumpAuthorBy a ca.login ca.count) acc) q =
        authorCount acc q + authorCount la q := by
  induction la with
  | nil => intro acc q; simp [authorCount]
  | cons ca tl ih =>
    intro acc q
    rw [List.foldl_cons, ih, authorCount_bumpAuthorBy]
    simp only [authorCount, List.map_cons, List.sum_cons]
    split_ifs <;> omega

lemma authorCount_combined_fold (l : List RepositoryMetrics) :
    ∀ (init : List CommitAuthor) (q : String),
      authorCount
        (l.foldl
          (fun acc r => r.commits.authors.foldl (fun a ca => bumpAuthorBy a ca.login ca.count) acc)
          init) q =
        authorCount init q + (l.map fun r => authorCount r.commits.authors q).sum := by
  induction l with
  | nil => intro init q; simp
  | cons r tl ih =>
    intro init q
    rw [List.foldl_cons, ih, authorCount_foldl_bump]
    simp only [List.map_cons, List.sum_cons]
    omega

lemma mem_insertUnique (l : List String) (s x : String) :
    x ∈ insertUnique l s ↔ x ∈ l ∨ x = s := by
  unfold insertUnique
  split_ifs with h
  · constructor
    · exact Or.inl
    · rintro (h1 | rfl)
      · exact h1
      · exact h
  · simp

lemma mem_foldl_insertUnique (la : List String) :
    ∀ (s : List String) (x : String),
      x ∈ la.foldl insertUnique s ↔ x ∈ s ∨ x ∈ la := by
  induction la with
  | nil => intro s x; simp
  | cons a tl ih =>
    intro s x
    rw [List.foldl_cons, ih, mem_insertUnique]
    simp [or_assoc, List.mem_cons]

lemma mem_foldl_union (g : RepositoryMetrics → List String) (l : List RepositoryMetrics) :
    ∀ (init : List String) (x : String),
      x ∈ l.foldl (fun s r => (g r).foldl insertUnique s) init ↔
        x ∈ init ∨ ∃ r ∈ l, x ∈ g r := by
  induction l with
  | nil => intro init x; simp
  | cons r tl ih =>
    intro init x
    rw [List.foldl_cons, ih, mem_foldl_insertUnique]
    simp [or_assoc]

lemma combine_commits_count (l : List RepositoryMetrics) :
    (combineRepositoryMetrics l).commits.count = (l.map fun r => r.commits.count).sum := by
  cases l with
  | nil => rfl
  | cons r tl => simp [combineRepositoryMetrics, foldl_add_eq_sum]

lemma combine_pr_open (l : List RepositoryMetrics) :
    (combineRepositoryMetrics l).pull_requests.open_count =
      (l.map fun r => r.pull_requests.open_count).sum := by
  cases l with
  | nil => rfl
  | cons r tl => simp [combineRepositoryMetrics, foldl_add_eq_sum]

lemma combine_pr_merged (l : List RepositoryMetrics) :
    (combineRepositoryMetrics l).pull_requests.merged =
      (l.map fun r => r.pull_requests.merged).sum := by
  cases l with
  | nil => rfl
  | cons r tl => simp [combineRepositoryMetrics, foldl_add_eq_sum]

lemma combine_pr_closed (l : List RepositoryMetrics) :
    (combineRepositoryMetrics l).pull_requests.closed =
      (l.map fun r => r.pull_requests.closed).sum := by
  cases l with
  | nil => rfl
  | cons r tl => simp [combineRepositoryMetrics, foldl_add_eq_sum]

lemma combine_reviews_count (l : List RepositoryMetrics) :
    (combineRepositoryMetrics l).reviews.count = (l.map fun r => r.reviews.count).sum := by
  cases l with
  | nil => rfl
  | cons r tl => simp [combineRepositoryMetrics, foldl_add_eq_sum]

lemma combine_issues_open (l : List RepositoryMetrics) :
    (combineRepositoryMetrics l).issues.open_count =
      (l.map fun r => r.issues.open_count).sum := by
  cases l with
  | nil => rfl
  | cons r tl => simp [combineRepositoryMetrics, foldl_add_eq_sum]

lemma combine_issues_closed (l : List RepositoryMetrics) :
    (combineRepositoryMetrics l).issues.closed = (l.map fun r => r.issues.closed).sum := by
  cases l with
  | nil => rfl
  | cons r tl => simp [combineRepositoryMetrics, foldl_add_eq_sum]

lemma combine_repositories_count (l : List RepositoryMetrics) :
    (combineRepositoryMetrics l).repositories_count = l.length := by
  cases l with
  | nil => rfl
  | cons r tl => simp [combineRepositoryMetrics]

lemma combine_authorCount (l : List RepositoryMetrics) (q : String) :
    authorCount (combineRepositoryMetrics l).commits.authors q =
      (l.map fun r => authorCount r.commits.authors q).sum := by
  cases l with
  | nil => rfl
  | cons r tl =>
    have h := authorCount_combined_fold (r :: tl) [] q
    have h0 : authorCount [] q = 0 := rfl
    rw [h0, Nat.zero_add] at h
    exact h

lemma combine_mem_pr_authors (l : List RepositoryMetrics) (x : String) :
    x ∈ (combineRepositoryMetrics l).pull_requests.authors ↔
      ∃ r ∈ l, x ∈ r.pull_requests.authors := by
  cases l with
  | nil => simp [combineRepositoryMetrics, createEmptyCombinedMetrics]
  | cons r tl =>
    have h := mem_foldl_union (fun r => r.pull_requests.authors) (r :: tl) [] x
    simp only [List.not_mem_nil, false_or] at h
    exact h

lemma combine_mem_reviewers (l : List RepositoryMetrics) (x : String) :
    x ∈ (combineRepositoryMetrics l).reviews.authors ↔
      ∃ r ∈ l, x ∈ r.reviews.authors := by
  cases l with
  | nil => simp [combineRepositoryMetrics, createEmptyCombinedMetrics]
  | cons r tl =>
    have h := mem_foldl_union (fun r => r.reviews.authors) (r :: tl) [] x
    simp only [List.not_mem_nil, false_or] at h
    exact h

lemma combine_mem_participants (l : List RepositoryMetrics) (x : String) :
    x ∈ (combineRepositoryMetrics l).issues.participants ↔
      ∃ r ∈ l, x ∈ r.issues.participants := by
  cases l with
  | nil => simp [combineRepositoryMetrics, createEmptyCombinedMetrics]
  | cons r tl =>
    have h := mem_foldl_union (fun r => r.issues.participants) (r :: tl) [] x
    simp only [List.not_mem_nil, false_or] at h
    exact h

/-- C8: `combineRepositoryMetrics []` is the all-zero `CombinedMetrics` with
`repositories_count = 0` (no failure), and for any two input lists that are
permutations of each other the combined integer totals, per-login commit
author counts and author/participant sets coincide — the result is
independent of input order. -/
theorem combine_empty_and_perm_invariant (l1 l2 : List RepositoryMetrics)
    (hp : l1.Perm l2) : CombinePermProperty l1 l2 := by
  refine ⟨rfl, ?_, ?_, ?_, ?_, ?_, ?_, ?_, ?_, ?_, ?_, ?_, ?_⟩
  · rw [combine_commits_count, combine_commits_count]
    exact (hp.map _).sum_eq
  · rw [combine_pr_open, combine_pr_open]
    exact (hp.map _).sum_eq
  · rw [combine_pr_merged, combine_pr_merged]
    exact (hp.map _).sum_eq
  · rw [combine_pr_closed, combine_pr_closed]
    exact (hp.map _).sum_eq
  · rw [combine_reviews_count, combine_reviews_count]
    exact (hp.map _).sum_eq
  · rw [combine_issues_open, combine_issues_open]
    exact (hp.map _).sum_eq
  · rw [combine_issues_closed, combine_issues_closed]
    exact (hp.map _).sum_eq
  · rw [combine_repositories_count, combine_repositories_count]
    exact hp.length_eq
  · intro login
    rw [combine_authorCount, combine_authorCount]
    exact (hp.map _).sum_eq
  · intro x
    rw [combine_mem_pr_authors, combine_mem_pr_authors]
    exact exists_congr fun r => and_congr_left fun _ => hp.mem_iff
  · intro x
    rw [combine_mem_reviewers, combine_mem_reviewers]
    exact exists_congr fun r => and_congr_left fun _ => hp.mem_iff
  · intro x
    rw [combine_mem_participants, combine_mem_participants]
    exact exists_congr fun r => and_congr_left fun _ => hp.mem_iff

/-- Witness for the combiner claim on two concrete swapped lists. -/
theorem combine_empty_and_perm_invariant_witness :
    CombinePermProperty
      [⟨"o/r1", ⟨3, [⟨"alice", 2⟩, ⟨"bob", 1⟩]⟩, ⟨1, 2, 3, ["alice"]⟩, ⟨4, ["carol"]⟩,
         ⟨1, 2, ["dave"]⟩⟩,
       ⟨"o/r2", ⟨5, [⟨"alice", 5⟩]⟩, ⟨0, 1, 0, ["bob"]⟩, ⟨2, ["carol", "erin"]⟩,
         ⟨0, 4, ["frank"]⟩⟩]
      [⟨"o/r2", ⟨5, [⟨"alice", 5⟩]⟩, ⟨0, 1, 0, ["bob"]⟩, ⟨2, ["carol", "erin"]⟩,
         ⟨0, 4, ["frank"]⟩⟩,
       ⟨"o/r1", ⟨3, [⟨"alice", 2⟩, ⟨"bob", 1⟩]⟩, ⟨1, 2, 3, ["alice"]⟩, ⟨4, ["carol"]⟩,
         ⟨1, 2, ["dave"]⟩⟩] :=
  combine_empty_and_perm_invariant _ _ (List.Perm.swap _ _ _)

/-- C6 counterexample: a repository whose existence check returns 404 yields
the all-zero record AND is counted as a SUCCESS by the batch loop
(`successful_collections = 1`, not `0`) — the claim that it is counted as a
failure is false. -/
theorem notfound_counted_as_success_counterexample :
    collectSingleRepositoryData env404 "owner/repo" =
      Except.ok (createEmptyRepositoryMetrics "owner/repo") ∧
    (collectRepositoryData env404 ["owner/repo"]).successful_collections = 1 ∧
    (collectRepositoryData env404 ["owner/repo"]).successful_collections ≠ 0 := by
  refine ⟨rfl, rfl, by decide⟩

/-- C6 amended: a repository whose existence check returns not-found yields an
all-zero `RepositoryMetrics` record that is appended to the batch and counted
as a SUCCESS (not a failure) in the batch summary, while sibling repositories
continue to be processed. -/
theorem notfound_zero_record_counted_success
    (env : CollectorEnv) (name : String) (repository : RepositoryInfo)
    (h1 : RepositoryInfo.from_full_name name = some repository)
    (h2 : env.repoExists repository.full_name = false)
    (pre post : List String) :
    collectSingleRepositoryData env name = Except.ok (createEmptyRepositoryMetrics name) ∧
    (collectRepositoryData env (pre ++ name :: post)).successful_collections =
      (collectRepositoryData env pre).successful_collections + 1 +
        (collectRepositoryData env post).successful_collections := by
  have hs : collectSingleRepositoryData env name =
      Except.ok (createEmptyRepositoryMetrics name) := by
    unfold collectSingleRepositoryData
    rw [h1]
    simp [h2]
  refine ⟨hs, ?_⟩
  simp only [collectRepositoryData, List.filterMap_append, List.filterMap_cons, hs,
    Except.toOption, List.length_append, List.length_cons]
  omega

/-- Witness for the amended 404 behaviour at a concrete repository. -/
theorem notfound_zero_record_counted_success_witness :
    collectSingleRepositoryData env404 "o/r" = Except.ok (createEmptyRepositoryMetrics "o/r") ∧
    (collectRepositoryData env404 ([] ++ "o/r" :: [])).successful_collections =
      (collectRepositoryData env404 []).successful_collections + 1 +
        (collectRepositoryData env404 []).successful_collections :=
  notfound_zero_record_counted_success env404 "o/r" ⟨"o", "r", "o/r"⟩ rfl rfl [] []

lemma breakSlash_eq_none {l : List Char} (h : ∀ c ∈ l, c ≠ '/') :
    breakSlash l = none := by
  induction l with
  | nil => rfl
  | cons c cs ih =>
    unfold breakSlash
    rw [if_neg (h c (by simp))]
    rw [ih fun d hd => h d (by simp [hd])]

/-- C10: a repository name with no '/' makes `RepositoryInfo.from_full_name`
fail; `_collectSingleRepositoryData` raises, the batch loop catches the
exception and skips the repository entirely — no zero record is appended, it
is excluded from the combined result (hence from `repositories_count`), and
the remaining repositories are still processed. -/
theorem invalid_repo_name_skipped
    (env : CollectorEnv) (bad : String) (h : ∀ c ∈ bad.data, c ≠ '/')
    (pre post : List String) :
    RepositoryInfo.from_full_name bad = none ∧
    collectSingleRepositoryData env bad = Except.error "not enough values to unpack" ∧
    (collectRepositoryData env (pre ++ bad :: post)).combined =
      (collectRepositoryData env (pre ++ post)).combined ∧
    (collectRepositoryData env (pre ++ bad :: post)).successful_collections =
      (collectRepositoryData env (pre ++ post)).successful_collections := by
  have hf : RepositoryInfo.from_full_name bad = none := by
    unfold RepositoryInfo.from_full_name
    rw [breakSlash_eq_none h]
  have hc : collectSingleRepositoryData env bad =
      Except.error "not enough values to unpack" := by
    unfold collectSingleRepositoryData
    rw [hf]
  refine ⟨hf, hc, ?_, ?_⟩ <;>
    simp [collectRepositoryData, List.filterMap_append, List.filterMap_cons, hc,
      Except.toOption]

/-- Witness for the invalid-name behaviour at a concrete batch. -/
theorem invalid_repo_name_skipped_witness :
    RepositoryInfo.from_full_name "badname" = none ∧
    collectSingleRepositoryData env404 "badname" =
      Except.error "not enough values to unpack" ∧
    (collectRepositoryData env404 (["a/b"] ++ "badname" :: ["c/d"])).combined =
      (collectRepositoryData env404 (["a/b"] ++ ["c/d"])).combined ∧
    (collectRepositoryData env404 (["a/b"] ++ "badname" :: ["c/d"])).successful_collections =
      (collectRepositoryData env404 (["a/b"] ++ ["c/d"])).successful_collections :=
  invalid_repo_name_skipped env404 "badname" (by decide) ["a/b"] ["c/d"]
